import Mathlib

/-!
Verification of the Ajax UART integration (`custom_components/ajax_uart`):
a shallow embedding of the line parser (`parser.py`) and of the session
coordinators in `__init__.py` (pairing, deletion, parameter update, device
list refresh), together with theorems about the specified behaviour.

Python dictionaries produced by the parser are modelled as association
lists of `PyVal` values; Python `None` is `PyVal.noneV`, so "key present
with value None" and "key absent" are distinguished exactly as in Python.
-/

namespace AjaxUart

/-! ### Structural models of the Python string operations

The Lean core implementations of `toUpper`, `trim`, `splitOn` and `replace`
iterate over byte positions and do not reduce inside the kernel, so the
embedding uses structurally recursive versions over the character list.
They agree with CPython `str.upper`, `str.strip`, `str.split(sep)` and
`str.replace` on the ASCII data this protocol carries. -/

/-- Python `s.upper()` (ASCII). -/
def pyUpper (s : String) : String := ⟨s.data.map Char.toUpper⟩

/-- Python `s.strip()`. -/
def pyStrip (s : String) : String :=
  ⟨((s.data.dropWhile Char.isWhitespace).reverse.dropWhile Char.isWhitespace).reverse⟩

/-- `s.split(sep)` for a single-character separator, on character lists. -/
def pySplitChars (sep : Char) : List Char → List (List Char)
  | [] => [[]]
  | c :: rest =>
    let r := pySplitChars sep rest
    if c = sep then [] :: r
    else
      match r with
      | [] => [[c]]
      | h :: t => (c :: h) :: t

/-- Python `s.split(sep)` for a single-character separator. -/
def pySplit (s : String) (sep : Char) : List String :=
  (pySplitChars sep s.data).map (fun cs => ⟨cs⟩)

/-- Python `s.split(sep, 1)`: split at the first occurrence, `none` when the
separator does not occur. -/
def splitFirstChars (sep : Char) : List Char → Option (List Char × List Char)
  | [] => none
  | c :: rest =>
    if c = sep then some ([], rest)
    else
      match splitFirstChars sep rest with
      | none => none
      | some (l, r) => some (c :: l, r)

/-- Python `s.split(sep, 1)` on strings. -/
def pySplitOnce (s : String) (sep : Char) : Option (String × String) :=
  (splitFirstChars sep s.data).map (fun p => (⟨p.1⟩, ⟨p.2⟩))

/-- Fuel-driven replace step (the fuel bounds the number of characters
consumed, keeping the recursion structural). -/
def pyReplaceFuel (pat repl : List Char) : Nat → List Char → List Char
  | 0, cs => cs
  | _ + 1, [] => []
  | fuel + 1, c :: rest =>
    if !pat.isEmpty && pat.isPrefixOf (c :: rest) then
      repl ++ pyReplaceFuel pat repl fuel (rest.drop (pat.length - 1))
    else c :: pyReplaceFuel pat repl fuel rest

/-- Python `s.replace(pat, repl)` (left-to-right, non-overlapping). -/
def pyReplace (s pat repl : String) : String :=
  ⟨pyReplaceFuel pat.data repl.data s.data.length s.data⟩

/-- A parsed Python value as stored in the event dictionaries. -/
inductive PyVal where
  | str (s : String)
  | int (i : Int)
  | float (src : String)
  | noneV
  | strList (l : List String)
deriving DecidableEq, Repr

/-- A Python dict with string keys, keeping insertion order like CPython. -/
abbrev PyDict := List (String × PyVal)

/-- `d[k] = v`: replace in place when the key exists, else append. -/
def dictSet (d : PyDict) (k : String) (v : PyVal) : PyDict :=
  if d.any (fun p => p.1 = k) then d.map (fun p => if p.1 = k then (k, v) else p)
  else d ++ [(k, v)]

/-- `d.get(k)`: `none` when the key is absent. -/
def dictGet (d : PyDict) (k : String) : Option PyVal :=
  (d.find? (fun p => p.1 = k)).map (·.2)

/-- `d.update(u)` (left-to-right over `u`). -/
def dictUpdate (d u : PyDict) : PyDict :=
  u.foldl (fun acc kv => dictSet acc kv.1 kv.2) d

/-- Python `str(v)` for the values we store. -/
def pyStr : PyVal → String
  | .str s => s
  | .int i => toString i
  | .float src => src
  | .noneV => "None"
  | .strList _ => ""

/-- `(x or "")` for an optional dict value: absent, `None` and `""` give `""`. -/
def orEmptyStr : Option PyVal → String
  | some (.str s) => s
  | _ => ""

/-- `list(x or [])` for an optional dict value holding a token list. -/
def tokensOf : Option PyVal → List String
  | some (.strList l) => l
  | _ => []

/-- Python truthiness of an optional string: absent, `None` and `""` are falsy. -/
def truthy : Option String → Bool
  | none => false
  | some s => s ≠ ""

/-- Decimal digits to a natural number. -/
def digitsToNat (l : List Char) : Nat :=
  l.foldl (fun acc c => acc * 10 + (c.toNat - '0'.toNat)) 0

/-- Model of Python `int(str)` on plain decimal literals: optional surrounding
whitespace, optional sign, one or more ASCII digits.  Underscore digit
grouping is not modelled; no claim depends on it. -/
def pyInt (s : String) : Option Int :=
  let cs := (pyStrip s).toList
  let (neg, digits) :=
    match cs with
    | '-' :: rest => (true, rest)
    | '+' :: rest => (false, rest)
    | _ => (false, cs)
  if !digits.isEmpty && digits.all Char.isDigit then
    let n : Int := Int.ofNat (digitsToNat digits)
    some (if neg then -n else n)
  else none

/-- One-or-more digits, after an optional sign. -/
def signedDigits (cs : List Char) : Bool :=
  let body := match cs with
    | '+' :: rest => rest
    | '-' :: rest => rest
    | _ => cs
  !body.isEmpty && body.all Char.isDigit

/-- Model of successful Python `float(str)` on plain decimal notation with an
optional exponent.  Special values (`inf`, `nan`) are not modelled; no claim
depends on the float fields. -/
def pyFloatOk (s : String) : Bool :=
  let t := (pyStrip s).toList
  let body := match t with
    | '+' :: rest => rest
    | '-' :: rest => rest
    | _ => t
  let (mant, ex) := body.span (fun c => c ≠ 'e' && c ≠ 'E')
  let mantOk :=
    let (ip, rest) := mant.span Char.isDigit
    match rest with
    | [] => !ip.isEmpty
    | '.' :: frac => frac.all Char.isDigit && (!ip.isEmpty || !frac.isEmpty)
    | _ => false
  let exOk := match ex with
    | [] => true
    | _ :: rest => signedDigits rest
  mantOk && exOk

/-- Python `fields[i]`, raising `IndexError` when out of range. -/
def pyIndex (fields : List String) (i : Nat) : Except String String :=
  match fields.get? i with
  | some v => .ok v
  | none => .error "list index out of range"

/-- `fields[i] if len(fields) > i else None`, as a dict value. -/
def fieldOrNone (fields : List String) (i : Nat) : PyVal :=
  match fields.get? i with
  | some v => .str v
  | none => .noneV

/-! ## Line parser (`parser.py`) -/

/-- `parse_alarm`: positional extraction; raises IndexError below 3 fields. -/
def parse_alarm (fields : List String) : Except String PyDict := do
  let tc ← pyIndex fields 1
  let di ← pyIndex fields 2
  .ok [("type_code", .str tc), ("device_id", .str (pyUpper di)),
       ("code", fieldOrNone fields 3)]

/-- `_maybe_int`: `int(str(value))`, `None` on conversion failure. -/
def maybe_int (value : String) : PyVal :=
  match pyInt value with
  | some i => .int i
  | none => .noneV

/-- `parse_status`: guarded positional extraction, opportunistic numeric
conversion; never raises. -/
def parse_status (fields : List String) : PyDict :=
  let base : PyDict :=
    [("type_code", fieldOrNone fields 1),
     ("device_id", match fields.get? 2 with
       | some v => .str (pyUpper v)
       | none => .noneV),
     ("battery", fieldOrNone fields 4),
     ("signal", fieldOrNone fields 5)]
  let base :=
    if fields.length > 8 then
      let f7 := fields.getD 7 ""
      let f8 := fields.getD 8 ""
      if pyFloatOk f7 && pyFloatOk f8 then
        base ++ [("loc_noise", .float f7), ("loc_rssi", .float f8)]
      else base
    else base
  let base :=
    if fields.length > 10 then base ++ [("setting_byte_1", maybe_int (fields.getD 10 ""))]
    else base
  if fields.length > 11 then base ++ [("setting_byte_2", maybe_int (fields.getD 11 ""))]
  else base

/-- `parse_rstate`: raises IndexError below 2 fields and ValueError when a
`key=value` token unpacks to more than two parts. -/
def parse_rstate (fields : List String) : Except String PyDict := do
  let d1 ← pyIndex fields 1
  let kvs ← (fields.drop 2).foldlM (fun (acc : PyDict) kv =>
      match pySplit kv '=' with
      | [_] => .ok acc
      | [k, v] => .ok (dictSet acc k (.str v))
      | _ => .error "too many values to unpack (expected 2)") []
  .ok ([("device_id", .str (pyUpper d1))] ++ kvs)

/-- `parse_list`: guarded positional extraction; never raises. -/
def parse_list (fields : List String) : PyDict :=
  [("sequence", fieldOrNone fields 1),
   ("slot", fieldOrNone fields 2),
   ("device_id", match fields.get? 3 with
     | some v => .str (pyUpper v)
     | none => .noneV),
   ("type_code", fieldOrNone fields 4)]

/-- `parse_result`: guarded positional extraction; never raises. -/
def parse_result (fields : List String) : PyDict :=
  [("status", fieldOrNone fields 1), ("code", fieldOrNone fields 2)]

/-- The tags `parse_line` recognizes. -/
def knownTags : List String := ["ALARM", "STATUS", "RSTATE", "EVENT", "LIST", "RESULT"]

/-- The tag-specific extraction step of `parse_line`. -/
def extractFor (tag : String) (parts : List String) : Except String PyDict :=
  if tag = "ALARM" then parse_alarm parts
  else if tag = "STATUS" then .ok (parse_status parts)
  else if tag = "RSTATE" then parse_rstate parts
  else if tag = "EVENT" then .ok [("event", .strList (parts.drop 1))]
  else if tag = "LIST" then .ok (parse_list parts)
  else if tag = "RESULT" then .ok (parse_result parts)
  else .ok []

/-- `parse_line`: split on `;`, tag the record, run the tag-specific
extractor inside `try`, recording any raised error in the `error` key. -/
def parse_line (line : String) : PyDict :=
  let parts := pySplit line ';'
  let tag := pyUpper (parts.headD "")
  let parsed : PyDict := [("tag", .str tag), ("raw", .str line)]
  match extractFor tag parts with
  | .ok u => dictUpdate parsed u
  | .error e => dictSet parsed "error" (.str e)

/-! ## Pairing coordinator (`AjaxPairingCoordinator`)

Timers are modelled as armed/disarmed flags; a `call_later` callback is a
separate step function that re-checks its guards exactly as the Python
closure does, so a cancelled or stale timer firing is a no-op.  Resolutions
of the asyncio futures are reported as `PAct` actions in addition to being
recorded in the state, because `_cleanup` drops the coordinator's references
to the future objects. -/

/-- Stages of the top-level pairing state machine (`self._stage`). -/
inductive PStage where
  | awaitStopResult | awaitStopClear | awaitAddResult
  | awaitDevice | awaitConfirmation | waitingFinalize
deriving DecidableEq, Repr

/-- Stages of the exit overlay (`self._exit_stage`). -/
inductive ExitStage where
  | awaitSttResult | awaitWrkResult
deriving DecidableEq, Repr

/-- The pairing exception hierarchy of `__init__.py`. -/
inductive PairExc where
  | pairingError (reason : String)
  | pairingTimeout (reason : String)
  | pairingCancelled (reason : String)
deriving DecidableEq, Repr

/-- A pairing candidate as built by `_build_candidate_details`. -/
structure Candidate where
  device_id : String
  type_code : Option String
  firmware : Option String
  type_name : Option String
  attrs : List (String × String)
deriving DecidableEq, Repr

/-- The observable state of an asyncio future. -/
inductive Fut where
  | pending
  | doneResult (c : Option Candidate)
  | doneError (e : PairExc)
deriving DecidableEq, Repr

/-- A resolution performed on one of the session's result handles. -/
inductive PAct where
  | setSearchResult (c : Option Candidate)
  | setSearchError (e : PairExc)
  | setFinalizeResult (c : Option Candidate)
  | setFinalizeError (e : PairExc)
deriving DecidableEq, Repr

/-- A Python exception escaping a handler. -/
inductive PyExc where
  | typeError (msg : String)
deriving DecidableEq, Repr

/-- External context read through `entry_data`: protocol presence, the
`list_active` flag and the device-library collaborator. -/
structure Ctx where
  proto : Bool := true
  listActive : Bool := false
  deviceModelLookup : String → Option String := fun _ => none

/-- `DEVICE_LIBRARY.device_model`. -/
def deviceModel (ctx : Ctx) : Option String → Option String
  | none => none
  | some tc => ctx.deviceModelLookup tc

/-- Mutable state of `AjaxPairingCoordinator`.  Future references hold the
future's status; `none` is a cleared (`None`) reference. -/
structure PairingState where
  active : Bool := false
  flowId : Option String := none
  stage : Option PStage := none
  timeoutArmed : Bool := false
  searchFut : Option Fut := none
  finalizeFut : Option Fut := none
  candidate : Option Candidate := none
  inEngineering : Bool := false
  exitPending : Bool := false
  exitStage : Option ExitStage := none
  exitTimeoutArmed : Bool := false
  exitCmdScheduled : Option String := none
  stopRetries : Nat := 0
  requestedStop : Bool := false
  refreshTaskPending : Bool := false
deriving DecidableEq, Repr

/-- `if self._search_future and not self._search_future.done(): set_result`. -/
def setSearchOk (s : PairingState) (c : Option Candidate) : PairingState × List PAct :=
  match s.searchFut with
  | some .pending => ({ s with searchFut := some (.doneResult c) }, [.setSearchResult c])
  | _ => (s, [])

/-- `if self._search_future and not self._search_future.done(): set_exception`. -/
def setSearchErr (s : PairingState) (e : PairExc) : PairingState × List PAct :=
  match s.searchFut with
  | some .pending => ({ s with searchFut := some (.doneError e) }, [.setSearchError e])
  | _ => (s, [])

/-- Guarded `set_result` on the finalize handle. -/
def setFinalizeOk (s : PairingState) (c : Option Candidate) : PairingState × List PAct :=
  match s.finalizeFut with
  | some .pending => ({ s with finalizeFut := some (.doneResult c) }, [.setFinalizeResult c])
  | _ => (s, [])

/-- Guarded `set_exception` on the finalize handle. -/
def setFinalizeErr (s : PairingState) (e : PairExc) : PairingState × List PAct :=
  match s.finalizeFut with
  | some .pending => ({ s with finalizeFut := some (.doneError e) }, [.setFinalizeError e])
  | _ => (s, [])

/-- `_send_exit_command`: records the new exit stage and replaces the
scheduled exit-command closure (the delay itself is abstracted away). -/
def send_exit_command (s : PairingState) (command : String) (stage : ExitStage) : PairingState :=
  { s with exitStage := some stage, exitCmdScheduled := some command }

/-- The scheduled exit-command closure firing: sends the captured command
only when the exit overlay is still pending and a protocol exists. -/
def fire_exit_command (ctx : Ctx) (s : PairingState) : PairingState × List String :=
  match s.exitCmdScheduled with
  | none => (s, [])
  | some c =>
    let s := { s with exitCmdScheduled := none }
    if !s.exitPending then (s, [])
    else if !ctx.proto then (s, [])
    else (s, [c])

/-- The stages `_cleanup` treats as "pairing may have left the hub outside
work mode". -/
def isEarlyStage : Option PStage → Bool
  | some .awaitStopResult | some .awaitStopClear
  | some .awaitAddResult | some .awaitDevice => true
  | _ => false

/-- `_cleanup(send_wrk=..., force_exit=...)`: cancels the pairing timer,
optionally enters the exit overlay (scheduling `stt`), and clears the
top-level session state. -/
def cleanup (ctx : Ctx) (s : PairingState) (sendWrk : Bool) (forceExit : Bool := false) :
    PairingState :=
  let s := { s with timeoutArmed := false }
  let shouldExit := sendWrk && ctx.proto &&
    (forceExit || s.inEngineering || s.requestedStop || isEarlyStage s.stage)
  let s :=
    if shouldExit then
      send_exit_command { s with exitPending := true, exitTimeoutArmed := true }
        "stt" .awaitSttResult
    else
      { s with exitPending := false, exitStage := none, inEngineering := false,
               exitTimeoutArmed := false, exitCmdScheduled := none }
  let s := { s with active := false, stage := none, flowId := none, candidate := none,
                    searchFut := none, finalizeFut := none }
  if !s.exitPending then { s with inEngineering := false, requestedStop := false }
  else s

/-- `start_search`: rejects a busy or not-ready coordinator, otherwise arms
the session and sends `stop`. -/
def start_search (ctx : Ctx) (s : PairingState) (flowId : String) :
    Except PairExc (PairingState × List String) :=
  if s.active then .error (.pairingError "busy")
  else if s.exitPending then .error (.pairingError "busy")
  else if ctx.listActive then .error (.pairingError "busy")
  else if !ctx.proto then .error (.pairingError "not_ready")
  else
    let s := { s with exitTimeoutArmed := false, exitCmdScheduled := none,
                      exitPending := false, exitStage := none }
    .ok ({ s with active := true, flowId := some flowId, stage := some .awaitStopResult,
                  candidate := none, finalizeFut := none, searchFut := some .pending,
                  inEngineering := false, stopRetries := 0, timeoutArmed := true,
                  requestedStop := true }, ["stop"])

/-- `cancel(reason=..., immediate=...)`: fails the pending handles with a
typed error and runs `_cleanup(send_wrk=True, force_exit=immediate)`. -/
def cancel (ctx : Ctx) (s : PairingState) (reason : String) (immediate : Bool := false) :
    PairingState × List PAct :=
  if !s.active && !immediate then (s, [])
  else
    let exc : PairExc :=
      if reason = "timeout" then .pairingTimeout reason
      else .pairingCancelled reason
    let (s, a1) := setFinalizeErr s exc
    let (s, a2) := setSearchErr s exc
    (cleanup ctx s true immediate, a1 ++ a2)

/-- `confirm_candidate`: accept the pending candidate, send `y`, create the
finalize handle. -/
def confirm_candidate (ctx : Ctx) (s : PairingState) (flowId : String) :
    Except PairExc (PairingState × List String) :=
  if !s.active || s.flowId ≠ some flowId then .error (.pairingError "no_session")
  else if s.candidate = none then .error (.pairingError "no_candidate")
  else if s.stage ≠ some .awaitConfirmation then .error (.pairingError "invalid_stage")
  else if !ctx.proto then .error (.pairingError "not_ready")
  else
    .ok ({ s with stage := some .waitingFinalize, finalizeFut := some .pending,
                  timeoutArmed := true }, ["y"])

/-- `force_cleanup`: reset state without sending commands; `exit_pending`
and `exit_stage` are left untouched by the source. -/
def force_cleanup (s : PairingState) : PairingState × List String × List PAct :=
  let s := { s with timeoutArmed := false, exitTimeoutArmed := false,
                    exitCmdScheduled := none }
  let (s, a1) := setSearchErr s (.pairingCancelled "cancelled")
  let (s, a2) := setFinalizeErr s (.pairingCancelled "cancelled")
  ({ s with active := false, stage := none, flowId := none, candidate := none,
            searchFut := none, finalizeFut := none, inEngineering := false,
            requestedStop := false }, [], a1 ++ a2)

/-- `_finalize_success(refresh=...)`: resolve the pending handle (finalize
first, else search) with the candidate, clear the session, then either spawn
the refresh task or enter the exit overlay via `_cleanup`. -/
def finalize_success (ctx : Ctx) (s : PairingState) (refresh : Bool) :
    PairingState × List PAct :=
  let candidate := s.candidate
  let (s, acts) :=
    match s.finalizeFut with
    | some .pending => ({ s with finalizeFut := some (.doneResult candidate) },
                        [PAct.setFinalizeResult candidate])
    | _ =>
      match s.searchFut with
      | some .pending => ({ s with searchFut := some (.doneResult candidate) },
                          [PAct.setSearchResult candidate])
      | _ => (s, [])
  let s := { s with active := false, stage := none, flowId := none,
                    searchFut := none, finalizeFut := none }
  if refresh then
    ({ s with candidate := candidate, refreshTaskPending := true }, acts)
  else
    (cleanup ctx { s with candidate := none } true, acts)

/-- `_refresh_then_exit` finishing: on refresh success clear the pairing
flags, on refresh failure fall back to `_cleanup(send_wrk=True)`. -/
def refresh_then_exit_done (ctx : Ctx) (s : PairingState) (ok : Bool) : PairingState :=
  if !s.refreshTaskPending then s
  else
    let s := { s with refreshTaskPending := false }
    if ok then
      { s with candidate := none, exitPending := false, exitStage := none,
               inEngineering := false, requestedStop := false }
    else cleanup ctx { s with candidate := none } true

/-- `_fail(reason)`: fail both pending handles with `PairingError(reason)`
and clean up with the exit overlay. -/
def fail (ctx : Ctx) (s : PairingState) (reason : String) : PairingState × List PAct :=
  let exc := PairExc.pairingError reason
  let (s, a1) := setFinalizeErr s exc
  let (s, a2) := setSearchErr s exc
  (cleanup ctx s true, a1 ++ a2)

/-- `_on_timeout`: guarded against the stale timer; fails the pending handle
(finalize first, else search) with a timeout error. -/
def on_timeout (ctx : Ctx) (s : PairingState) : PairingState × List PAct :=
  if !s.active then (s, [])
  else
    let exc := PairExc.pairingTimeout "timeout"
    let (s, acts) :=
      match s.finalizeFut with
      | some .pending => ({ s with finalizeFut := some (.doneError exc) },
                          [PAct.setFinalizeError exc])
      | _ =>
        match s.searchFut with
        | some .pending => ({ s with searchFut := some (.doneError exc) },
                            [PAct.setSearchError exc])
        | _ => (s, [])
    (cleanup ctx s true, acts)

/-- Acceptable result codes `{"", "0", "2"}`. -/
def okExitCode (c : String) : Bool := c = "" || c = "0" || c = "2"

/-- `_complete_exit_success`. -/
def complete_exit_success (s : PairingState) : PairingState :=
  { s with exitPending := false, exitStage := none, inEngineering := false,
           candidate := none, exitTimeoutArmed := false, exitCmdScheduled := none,
           requestedStop := false }

/-- `_handle_exit_result`: drive the `stt`/`wrk` exit overlay.  All command
sends here go through the scheduled exit-command closure. -/
def handle_exit_result (s : PairingState) (status code : String) :
    PairingState × Bool :=
  if s.exitStage = some .awaitSttResult then
    if status = "OK" && okExitCode code then
      (send_exit_command { s with exitTimeoutArmed := true } "wrk" .awaitWrkResult, true)
    else if status = "NAK" && code = "2" then
      (send_exit_command s "stt" .awaitSttResult, true)
    else
      (send_exit_command s "stt" .awaitSttResult, true)
  else if s.exitStage = some .awaitWrkResult then
    if status = "OK" && okExitCode code then
      (complete_exit_success s, true)
    else
      (send_exit_command { s with exitTimeoutArmed := true } "wrk" .awaitWrkResult, true)
  else
    (s, false)

/-- `_send_wrk_fallback` (the exit fallback timer firing). -/
def send_wrk_fallback (s : PairingState) : PairingState :=
  if !s.exitPending then s
  else send_exit_command { s with exitTimeoutArmed := true } "wrk" .awaitWrkResult

/-- `_handle_exit_event`: a `SYSTEM` event during `await_stt_result`
schedules an `stt` retry. -/
def handle_exit_event (s : PairingState) (e : PyDict) : PairingState :=
  if s.exitStage ≠ some .awaitSttResult then s
  else
    match tokensOf (dictGet e "event") with
    | [] => s
    | first :: _ =>
      if pyUpper (pyStrip first) = "SYSTEM" then send_exit_command s "stt" .awaitSttResult
      else s

/-- Attribute-map insertion (`attributes[key] = value`, dict semantics). -/
def attrSet (m : List (String × String)) (k v : String) : List (String × String) :=
  if m.any (fun p => p.1 = k) then m.map (fun p => if p.1 = k then (k, v) else p)
  else m ++ [(k, v)]

/-- Attribute-map lookup (`attributes.get(key)`). -/
def attrGet (m : List (String × String)) (k : String) : Option String :=
  (m.find? (fun p => p.1 = k)).map (·.2)

/-- `_parse_event_tokens`: first token is the device id (uppercased), later
`key=value` tokens populate the attribute map with uppercased keys. -/
def parse_event_tokens (tokens : List String) : Option String × List (String × String) :=
  match tokens with
  | [] => (none, [])
  | t0 :: rest =>
    let device_id := pyUpper (pyStrip t0)
    let attrs := rest.foldl (fun acc token =>
      let token := pyStrip token
      if token = "" then acc
      else
        match pySplitOnce token '=' with
        | none => acc
        | some (k, v) => attrSet acc (pyUpper k) v) []
    (some device_id, attrs)

/-- `_build_candidate_details`. -/
def build_candidate_details (ctx : Ctx) (device_id : String)
    (attrs : List (String × String)) : Candidate :=
  let type_code := attrGet attrs "TYP"
  let firmware := attrGet attrs "VER"
  let type_name :=
    if truthy type_code then
      let m := deviceModel ctx type_code
      if truthy m then m else type_code
    else none
  { device_id := device_id, type_code := type_code, firmware := firmware,
    type_name := type_name, attrs := attrs }

/-- `_handle_event_line`: candidate discovery in `await_device`, and the two
EVENT-driven finalize-success paths in `waiting_finalize`. -/
def handle_event_line (ctx : Ctx) (s : PairingState) (e : PyDict) :
    PairingState × List PAct × Bool :=
  let tokens := tokensOf (dictGet e "event")
  if tokens.isEmpty then (s, [], false)
  else
    let (device_id, attrs) := parse_event_tokens tokens
    if !truthy device_id then (s, [], false)
    else
      let did := device_id.getD ""
      if s.stage = some .awaitDevice then
        if attrGet attrs "NEW" == some "1" && truthy (attrGet attrs "WFA") then
          let c := build_candidate_details ctx did attrs
          let s := { s with candidate := some c, stage := some .awaitConfirmation,
                            timeoutArmed := true }
          let (s, acts) := setSearchOk s (some c)
          (s, acts, true)
        else (s, [], false)
      else
        match s.candidate with
        | some c =>
          if s.stage = some .waitingFinalize && did = c.device_id then
            if truthy (attrGet attrs "STR") && truthy (attrGet attrs "SLT") then
              let (s, acts) := finalize_success ctx s true
              (s, acts, true)
            else if attrGet attrs "NEW" == some "1" && !truthy (attrGet attrs "WFA") then
              let (s, acts) := finalize_success ctx s false
              (s, acts, true)
            else (s, [], false)
          else (s, [], false)
        | none => (s, [], false)

/-- The sub-event dict `{"tag": "EVENT", "event": current, "raw": raw}`. -/
def subEvent (current : List String) (raw : Option PyVal) : PyDict :=
  [("tag", .str "EVENT"), ("event", .strList current), ("raw", raw.getD .noneV)]

/-- `_handle_event_dispatch`: split a token stream on embedded `EVENT`
markers into sub-events, feeding each to `_handle_event_line`. -/
def handle_event_dispatch (ctx : Ctx) (s : PairingState) (e : PyDict) :
    PairingState × List PAct × Bool :=
  let tokens := tokensOf (dictGet e "event")
  if !tokens.contains "EVENT" then handle_event_line ctx s e
  else
    let raw := dictGet e "raw"
    let step := fun (acc : (PairingState × List PAct × Bool) × List String) (token : String) =>
      let ((s, acts, consumed), current) := acc
      if pyUpper token = "EVENT" then
        if !current.isEmpty then
          let (s, a, c) := handle_event_line ctx s (subEvent current raw)
          ((s, acts ++ a, consumed || c), [])
        else ((s, acts, consumed), current)
      else ((s, acts, consumed), current ++ [token])
    let ((s, acts, consumed), current) := tokens.foldl step ((s, [], false), [])
    if !current.isEmpty then
      let (s, a, c) := handle_event_line ctx s (subEvent current raw)
      (s, acts ++ a, consumed || c)
    else (s, acts, consumed)

/-- `event.get("tag") == t`. -/
def hasTag (e : PyDict) (t : String) : Bool :=
  dictGet e "tag" == some (.str t)

/-- `_handle_result`: advance the top-level stage machine on a RESULT frame.
In `waiting_finalize` with status OK the source calls
`self._finalize_success()` without the required keyword-only argument
`refresh`, which raises `TypeError` in CPython before anything is resolved. -/
def handle_result (ctx : Ctx) (s : PairingState) (e : PyDict) :
    Except PyExc (PairingState × List String × List PAct × Bool) :=
  let status := pyUpper (orEmptyStr (dictGet e "status"))
  let code := pyStrip (orEmptyStr (dictGet e "code"))
  if s.exitPending then
    let r := handle_exit_result s status code
    .ok (r.1, [], [], r.2)
  else if s.stage = some .awaitStopResult then
    if status = "OK" && okExitCode code then
      .ok ({ s with stage := some .awaitAddResult, inEngineering := true,
                    timeoutArmed := true }, if ctx.proto then ["add"] else [], [], true)
    else if status = "NAK" && code = "2" then
      if s.stopRetries ≥ 3 then
        let r := fail ctx s "busy"
        .ok (r.1, [], r.2, true)
      else
        .ok ({ s with stopRetries := s.stopRetries + 1, stage := some .awaitStopClear,
                      timeoutArmed := true }, if ctx.proto then ["stt"] else [], [], true)
    else if status = "NAK" && code = "0" then
      if s.stopRetries ≥ 3 then
        let r := fail ctx s "stop_failed"
        .ok (r.1, [], r.2, true)
      else
        .ok ({ s with stopRetries := s.stopRetries + 1, stage := some .awaitStopResult,
                      timeoutArmed := true }, if ctx.proto then ["stop"] else [], [], true)
    else
      let r := fail ctx s "stop_failed"
      .ok (r.1, [], r.2, true)
  else if s.stage = some .awaitStopClear then
    if (status = "OK" || status = "NAK") && okExitCode code then
      .ok ({ s with stage := some .awaitStopResult, timeoutArmed := true },
           if ctx.proto then ["stop"] else [], [], true)
    else
      let r := fail ctx s "stop_failed"
      .ok (r.1, [], r.2, true)
  else if s.stage = some .awaitAddResult then
    if status = "OK" then
      .ok ({ s with stage := some .awaitDevice, timeoutArmed := true }, [], [], true)
    else
      let r := fail ctx s "add_failed"
      .ok (r.1, [], r.2, true)
  else if s.stage = some .waitingFinalize then
    if status = "OK" then
      .error (.typeError
        "_finalize_success() missing 1 required keyword-only argument: 'refresh'")
    else
      let r := fail ctx s "confirm_failed"
      .ok (r.1, [], r.2, true)
  else
    .ok (s, [], [], false)

/-- `AjaxPairingCoordinator.handle_event`. -/
def pairing_handle_event (ctx : Ctx) (s : PairingState) (e : PyDict) :
    Except PyExc (PairingState × List String × List PAct × Bool) :=
  if s.exitPending && hasTag e "RESULT" then
    let status := pyUpper (orEmptyStr (dictGet e "status"))
    let code := pyStrip (orEmptyStr (dictGet e "code"))
    let r := handle_exit_result s status code
    .ok (r.1, [], [], r.2)
  else if s.exitPending && hasTag e "EVENT" then
    .ok (handle_exit_event s e, [], [], true)
  else if !s.active then .ok (s, [], [], false)
  else if hasTag e "RESULT" then handle_result ctx s e
  else if hasTag e "EVENT" then
    let (s, acts, c) := handle_event_dispatch ctx s e
    .ok (s, [], acts, c)
  else .ok (s, [], [], false)

/-- Accumulated outcome of feeding a sequence of events to the pairing
coordinator. -/
structure PRun where
  s : PairingState
  cmds : List String := []
  acts : List PAct := []
deriving DecidableEq, Repr

/-- Feed events one by one, accumulating commands and handle resolutions. -/
def runPairingEvents (ctx : Ctx) (r : PRun) : List PyDict → Except PyExc PRun
  | [] => .ok r
  | e :: rest =>
    match pairing_handle_event ctx r.s e with
    | .error ex => .error ex
    | .ok (s, cmds, acts, _) =>
      runPairingEvents ctx { s := s, cmds := r.cmds ++ cmds, acts := r.acts ++ acts } rest

/-! ## Deletion coordinator (`AjaxDeletionCoordinator`) -/

/-- Stages of a deletion session. -/
inductive DelStage where
  | awaitStop | awaitDelete | awaitWrk
deriving DecidableEq, Repr

/-- Observable state of a deletion/parameter future. -/
inductive DelFut where
  | pending
  | doneOk
  | doneErr (reason : String)
  | cancelledFut
deriving DecidableEq, Repr

/-- Resolutions performed on the deletion handle. -/
inductive DelAct where
  | setResult
  | setError (reason : String)
  | cancelPending
deriving DecidableEq, Repr

/-- Mutable state of `AjaxDeletionCoordinator`; `busy` is `future ≠ none`. -/
structure DelState where
  future : Option DelFut := none
  stage : Option DelStage := none
  device_id : Option String := none
deriving DecidableEq, Repr

/-- `AjaxDeletionCoordinator.cancel`. -/
def del_cancel (s : DelState) : DelState × List DelAct :=
  let (s, acts) :=
    match s.future with
    | some .pending => ({ s with future := some .cancelledFut }, [DelAct.cancelPending])
    | _ => (s, [])
  ({ s with future := none, stage := none, device_id := none }, acts)

/-- `AjaxDeletionCoordinator._fail`: fail the pending handle, best-effort
`wrk`, then `cancel`. -/
def del_fail (proto : Bool) (s : DelState) (reason : String) :
    DelState × List String × List DelAct :=
  let (s, a1) :=
    match s.future with
    | some .pending => ({ s with future := some (.doneErr reason) }, [DelAct.setError reason])
    | _ => (s, [])
  let cmds := if proto then ["wrk"] else []
  let (s, a2) := del_cancel s
  (s, cmds, a1 ++ a2)

/-- `AjaxDeletionCoordinator.handle_event`. -/
def del_handle_event (proto : Bool) (s : DelState) (e : PyDict) :
    DelState × List String × List DelAct × Bool :=
  if s.future = none || !hasTag e "RESULT" then (s, [], [], false)
  else
    let status := pyUpper (orEmptyStr (dictGet e "status"))
    let code := pyStrip (orEmptyStr (dictGet e "code"))
    if s.stage = some .awaitStop then
      if status = "OK" && okExitCode code then
        ({ s with stage := some .awaitDelete },
         if proto then ["del " ++ (s.device_id.getD "None")] else [], [], true)
      else if status = "NAK" && code = "2" then
        (s, if proto then ["stop"] else [], [], true)
      else
        let (s, cmds, acts) :=
          del_fail proto s ("stop_failed status=" ++ status ++ " code=" ++ code)
        (s, cmds, acts, true)
    else if s.stage = some .awaitDelete then
      if status = "OK" && okExitCode code then
        ({ s with stage := some .awaitWrk }, if proto then ["wrk"] else [], [], true)
      else
        let (s, cmds, acts) :=
          del_fail proto s ("delete_failed status=" ++ status ++ " code=" ++ code)
        (s, cmds, acts, true)
    else if s.stage = some .awaitWrk then
      if status = "OK" && okExitCode code then
        match s.future with
        | some .pending => ({ s with future := some .doneOk }, [], [DelAct.setResult], true)
        | _ => (s, [], [], true)
      else if status = "NAK" && code = "2" then
        (s, if proto then ["wrk"] else [], [], true)
      else
        let (s, cmds, acts) :=
          del_fail proto s ("wrk_failed status=" ++ status ++ " code=" ++ code)
        (s, cmds, acts, true)
    else (s, [], [], false)

/-- The `finally` block of `async_delete` after the future completes. -/
def del_await_finished (s : DelState) : DelState :=
  { s with stage := none, device_id := none, future := none }

/-- Accumulated outcome of feeding a sequence of events to the deletion
coordinator. -/
structure DRun where
  s : DelState
  cmds : List String := []
  acts : List DelAct := []
deriving DecidableEq, Repr

/-- Feed events one by one to `del_handle_event`. -/
def runDelEvents (proto : Bool) (r : DRun) : List PyDict → DRun
  | [] => r
  | e :: rest =>
    let (s, cmds, acts, _) := del_handle_event proto r.s e
    runDelEvents proto { s := s, cmds := r.cmds ++ cmds, acts := r.acts ++ acts } rest

/-! ## Parameter coordinator (`AjaxParameterCoordinator`, start path) -/

/-- Mutable state of `AjaxParameterCoordinator`; `busy` is `future ≠ none`. -/
structure ParamState where
  future : Option DelFut := none
  stage : Option String := none
  device_id : Option String := none
  command : Option String := none
deriving DecidableEq, Repr

/-! ## Device-list refresh (`_async_refresh_device_list` and friends) -/

/-- Generic association-list insertion with Python-dict semantics. -/
def alistSet {α : Type} (m : List (String × α)) (k : String) (v : α) :
    List (String × α) :=
  if m.any (fun p => p.1 = k) then m.map (fun p => if p.1 = k then (k, v) else p)
  else m ++ [(k, v)]

/-- Generic association-list lookup. -/
def alistGet {α : Type} (m : List (String × α)) (k : String) : Option α :=
  (m.find? (fun p => p.1 = k)).map (·.2)

/-- The keys of an association list, in insertion order. -/
def alistKeys {α : Type} (m : List (String × α)) : List String := m.map (·.1)

/-- A device metadata entry.  Fields whose dict key can be present with
value `None` use a doubled `Option`. -/
structure Meta where
  type_code : Option String := none
  type_name : Option (Option String) := none
  sequence : Option (Option String) := none
  slot : Option (Option String) := none
  params_template : Option String := none
  params_state : Option (List (String × String)) := none
  unique_name : Option String := none
  name : Option String := none
  device_registry_id : Option String := none
deriving DecidableEq, Repr

/-- External collaborators of the refresh: the device library and the device
registry (`async_get_or_create` returning a registry entry id). -/
structure Lib where
  deviceModelLookup : String → Option String := fun _ => none
  paramsTemplateLookup : String → Option String := fun _ => none
  regCreate : String → String := fun u => "reg-" ++ u

/-- `MANUFACTURER` from `const.py`. -/
def MANUFACTURER : String := "Ajax Systems"

/-- `DEVICE_LIBRARY.device_model` over an optional type code. -/
def libDeviceModel (lib : Lib) : Option String → Option String
  | none => none
  | some tc => lib.deviceModelLookup tc

/-- `DEVICE_LIBRARY.params_template_name` over an optional type code. -/
def paramsTemplateName (lib : Lib) : Option String → Option String
  | none => none
  | some tc => lib.paramsTemplateLookup tc

/-- `_ensure_device_identity`: derive `type_name`, parameter-template
bookkeeping, `unique_name` and the default display name. -/
def ensure_device_identity (lib : Lib) (entry : Meta) (device_id : String) : Meta :=
  let type_code := entry.type_code
  let tn0 : Option String := entry.type_name.bind id
  let type_name := if truthy tn0 then tn0 else libDeviceModel lib type_code
  let entry := { entry with type_name := some type_name }
  let pt := paramsTemplateName lib type_code
  let entry :=
    if truthy pt then
      { entry with params_template := pt,
                   params_state := some (entry.params_state.getD []) }
    else
      { entry with params_template := none, params_state := none }
  let vendor_slug := (pySplit MANUFACTURER ' ').headD ""
  let tname := if truthy type_name then type_name.getD "" else "Device"
  let type_token := pyReplace tname " " ""
  let unique_name := pyReplace (vendor_slug ++ "_" ++ type_token ++ "_" ++ device_id) "__" "_"
  let entry := { entry with unique_name := some unique_name }
  if entry.name = none then { entry with name := some (pyReplace unique_name "_" " ") }
  else entry

/-- `LIST_MAX_RETRIES`. -/
def LIST_MAX_RETRIES : Nat := 5

/-- Stages of a device-list refresh (`entry_data["list_stage"]`). -/
inductive ListStage where
  | stop | lst | wrk
deriving DecidableEq, Repr

/-- The `entry_data` slice owned by the device-list refresh. -/
structure ListState where
  devices : List (String × Meta) := []
  devices_snapshot : Option (List (String × Meta)) := none
  list_pending : Option (List (String × Meta)) := none
  list_active : Bool := false
  list_stage : Option ListStage := none
  list_retries : Nat := 0
  list_timeout_armed : Bool := false
  wrk_handle_armed : Bool := false
  delayed_stop_armed : Bool := false
  allowed_ids : List String := []
deriving DecidableEq, Repr

/-- Registry collaborator calls emitted while finalizing a refresh. -/
inductive RegAct where
  | createOrUpdate (unique_name : String)
  | removeDevice (registry_id : String)
  | removeWarning (device_id : String)
deriving DecidableEq, Repr

/-- `_schedule_wrk_send`: cancel any scheduled worker-mode fallback and arm
a new one (only when a protocol exists). -/
def schedule_wrk_send (proto : Bool) (st : ListState) : ListState :=
  if proto then { st with wrk_handle_armed := true }
  else { st with wrk_handle_armed := false }

/-- `_schedule_wrk_cancel`. -/
def schedule_wrk_cancel (st : ListState) : ListState :=
  { st with wrk_handle_armed := false }

/-- The scheduled worker-mode fallback firing. -/
def fire_wrk_send (st : ListState) : ListState × List String :=
  if !st.wrk_handle_armed then (st, [])
  else
    let st := { st with wrk_handle_armed := false }
    if !st.list_active then (st, [])
    else ({ st with list_stage := some .wrk }, ["wrk"])

/-- `if previous_state:` — a params-state dict is truthy iff non-None and
non-empty. -/
def truthyState : Option (List (String × String)) → Bool
  | some l => !l.isEmpty
  | none => false

/-- `dict.update` of the previous params state into the current one. -/
def mergeState (base upd : List (String × String)) : List (String × String) :=
  upd.foldl (fun acc kv => alistSet acc kv.1 kv.2) base

/-- `_finalize_device_list`: diff the collected pending entries against the
snapshot, rebuild the device map, and report registry creations/removals.
Returns the new state, the removed-id set and the registry actions.  The
per-platform presentation-manager fan-out and hub-metadata update that
follow in the source are external collaborators and are not modelled. -/
def finalize_device_list (lib : Lib) (st : ListState) (success : Bool) :
    ListState × List String × List RegAct :=
  let st := { st with list_timeout_armed := false, wrk_handle_armed := false }
  let pending := st.list_pending.getD []
  let snapshot := st.devices_snapshot.getD st.devices
  let st := { st with list_pending := none, devices_snapshot := none }
  let new_devices := if success && !pending.isEmpty then pending else snapshot
  let removed_ids :=
    (alistKeys snapshot).filter (fun k => !(alistKeys new_devices).contains k)
  let devices := new_devices.map (fun p =>
    let meta := ensure_device_identity lib p.2 p.1
    let previous_state := (alistGet snapshot p.1).bind (·.params_state)
    let merged := some (mergeState (meta.params_state.getD []) (previous_state.getD []))
    let meta :=
      if truthyState previous_state then { meta with params_state := merged }
      else meta
    let meta :=
      { meta with device_registry_id := some (lib.regCreate (meta.unique_name.getD "")) }
    (p.1, meta))
  let createActs := devices.map (fun p => RegAct.createOrUpdate (p.2.unique_name.getD ""))
  let removeActs := removed_ids.map (fun rid =>
    match (alistGet snapshot rid).bind (·.device_registry_id) with
    | some did => if did ≠ "" then RegAct.removeDevice did else RegAct.removeWarning rid
    | none => RegAct.removeWarning rid)
  ({ st with devices := devices, allowed_ids := alistKeys new_devices,
             list_active := false, list_stage := none, list_retries := 0 },
   removed_ids, createActs ++ removeActs)

/-- `_async_refresh_device_list` (synchronous part): snapshot the device
map, arm the overall timeout and the delayed `stop`. -/
def refresh_device_list_start (proto : Bool) (st : ListState) : ListState :=
  if st.list_active then st
  else if !proto then st
  else
    { st with devices_snapshot := some st.devices, list_pending := some [],
              list_active := true, list_stage := none, list_retries := 0,
              list_timeout_armed := true, delayed_stop_armed := true }

/-- The `_delayed_stop` task body running. -/
def fire_delayed_stop (st : ListState) : ListState × List String :=
  if !st.delayed_stop_armed then (st, [])
  else
    let st := { st with delayed_stop_armed := false }
    if !st.list_active then (st, [])
    else ({ st with list_stage := some .stop }, ["stop"])

/-- The Python string held in `event.get("device_id", "")`, uppercased. -/
def eventDeviceId (e : PyDict) : String :=
  pyUpper (match dictGet e "device_id" with
   | some v => pyStr v
   | none => "")

/-- A dict value as an optional string (`None` and absent collapse). -/
def pyOptVal : Option PyVal → Option String
  | some .noneV => none
  | some v => some (pyStr v)
  | none => none

/-- `_handle_list_entry`: accumulate one LIST line into the pending map. -/
def handle_list_entry (lib : Lib) (proto : Bool) (st : ListState) (e : PyDict) :
    ListState :=
  if !st.list_active then st
  else
    let pending := st.list_pending.getD []
    let device_id := eventDeviceId e
    if device_id = "" then { st with list_pending := some pending }
    else
      let entry := (alistGet pending device_id).getD {}
      let entry :=
        match dictGet e "type_code" with
        | none => entry
        | some .noneV => entry
        | some v =>
          let tc := pyStrip (pyStr v)
          if tc ≠ "" then
            { entry with type_code := some tc,
                         type_name := some (lib.deviceModelLookup tc) }
          else entry
      let entry :=
        if entry.sequence = none then
          { entry with sequence := some (pyOptVal (dictGet e "sequence")) }
        else entry
      let entry :=
        if entry.slot = none then
          { entry with slot := some (pyOptVal (dictGet e "slot")) }
        else entry
      let entry := ensure_device_identity lib entry device_id
      let st := { st with list_pending := some (alistSet pending device_id entry) }
      if st.list_stage = some .lst then schedule_wrk_send proto st else st

/-- `_process_list_result`: drive the stop → lst → wrk refresh machine.
Sends scheduled through `call_later` (the retry `stop`) are emitted directly
since their closures are unconditional; only their delay is abstracted. -/
def process_list_result (lib : Lib) (proto : Bool) (st : ListState) (e : PyDict) :
    ListState × List String × List String × List RegAct :=
  let status := pyUpper (orEmptyStr (dictGet e "status"))
  if st.list_stage = none then (st, [], [], [])
  else if status ≠ "OK" then
    let code := orEmptyStr (dictGet e "code")
    if st.list_stage = some .stop && status = "NAK" && (code = "0" || code = "") &&
        st.list_retries < LIST_MAX_RETRIES then
      ({ st with list_retries := st.list_retries + 1 },
       if proto then ["stop"] else [], [], [])
    else if st.list_stage = some .lst && status = "NAK" && (code = "0" || code = "") &&
        st.list_retries < LIST_MAX_RETRIES then
      let st := { st with list_retries := st.list_retries + 1 }
      if proto then
        ({ st with wrk_handle_armed := false, list_stage := some .stop }, ["stop"], [], [])
      else (st, [], [], [])
    else
      let cmds := if proto then ["wrk"] else []
      let r := finalize_device_list lib st false
      (r.1, cmds, r.2.1, r.2.2)
  else if st.list_stage = some .stop then
    let st := { st with list_retries := 0, list_stage := some .lst }
    if proto then (schedule_wrk_send proto st, ["lst"], [], [])
    else (st, [], [], [])
  else if st.list_stage = some .lst then
    let st := { st with list_stage := some .wrk }
    let cmds := if proto then ["wrk"] else []
    (schedule_wrk_cancel st, cmds, [], [])
  else
    let r := finalize_device_list lib st true
    (r.1, [], r.2.1, r.2.2)

/-- `_async_device_list_timeout` firing after its sleep. -/
def list_timeout_fire (lib : Lib) (proto : Bool) (st : ListState) :
    ListState × List String × List String × List RegAct :=
  if !st.list_timeout_armed then (st, [], [], [])
  else
    let st := { st with list_timeout_armed := false }
    if !st.list_active then (st, [], [], [])
    else
      let cmds := if proto then ["wrk"] else []
      let pending := st.list_pending.getD []
      let r := finalize_device_list lib st (!pending.isEmpty)
      (r.1, cmds, r.2.1, r.2.2)

/-- The LIST/RESULT routing slice of `_handle_event` in
`_async_start_bridge`. -/
def list_dispatch (lib : Lib) (proto : Bool) (st : ListState) (e : PyDict) :
    ListState × List String × List String × List RegAct :=
  if hasTag e "LIST" then (handle_list_entry lib proto st e, [], [], [])
  else if hasTag e "RESULT" && st.list_active then process_list_result lib proto st e
  else (st, [], [], [])

/-! ## The combined per-entry state and the session start operations -/

/-- The per-config-entry state relevant to session arbitration. -/
structure System where
  pairing : PairingState := {}
  del : DelState := {}
  param : ParamState := {}
  listSt : ListState := {}
  proto : Bool := true
  hubCode : Option String := none
deriving DecidableEq, Repr

/-- `AjaxPairingCoordinator.start_search` reading its flags from
`entry_data`. -/
def system_start_search (sys : System) (flowId : String) :
    Except PairExc System × List String :=
  match start_search { proto := sys.proto, listActive := sys.listSt.list_active }
      sys.pairing flowId with
  | .error e => (.error e, [])
  | .ok (p, cmds) => (.ok { sys with pairing := p }, cmds)

/-- The synchronous prefix of `AjaxDeletionCoordinator.async_delete`, up to
sending `stop`: validation, busy checks, session arming.  The invalid-device
check precedes the lock acquisition and every other check. -/
def async_delete_start (sys : System) (device_id : String) :
    Except String System × List String :=
  let device_id := pyUpper device_id
  if device_id = "" || some device_id = sys.hubCode then
    (.error "Invalid device id", [])
  else if sys.del.future ≠ none then
    (.error "Another delete operation is running", [])
  else if !sys.proto then
    (.error "Bridge connection not ready", [])
  else if !(alistKeys sys.listSt.devices).contains device_id then
    (.error ("Unknown device id " ++ device_id), [])
  else if sys.listSt.list_active then
    (.error "Device list refresh in progress", [])
  else if sys.pairing.active || sys.pairing.exitPending then
    (.error "Pairing operation in progress", [])
  else
    (.ok { sys with del := { future := some .pending, stage := some .awaitStop,
                             device_id := some device_id } }, ["stop"])

/-- The synchronous prefix of `AjaxParameterCoordinator.async_set`, up to
sending `stop`. -/
def async_set_start (sys : System) (device_id command : String) :
    Except String System × List String :=
  let device_id := pyUpper device_id
  if sys.param.future ≠ none then
    (.error "Another parameter update is running", [])
  else if !sys.proto then
    (.error "Bridge connection not ready", [])
  else if sys.listSt.list_active then
    (.error "Device list refresh in progress", [])
  else if sys.del.future ≠ none then
    (.error "Device deletion in progress", [])
  else if sys.pairing.active || sys.pairing.exitPending then
    (.error "Pairing operation in progress", [])
  else
    (.ok { sys with param := { future := some .pending, stage := some "await_stop",
                               device_id := some device_id,
                               command := some command } }, ["stop"])

/-- `_async_refresh_device_list` at the system level: a concurrent trigger
while a refresh is active is a silent no-op. -/
def system_refresh_start (sys : System) : System × List String :=
  ({ sys with listSt := refresh_device_list_start sys.proto sys.listSt }, [])

/-! ## Concrete fixtures used by the theorems -/

/-- Default context: protocol present, no refresh active. -/
def ctx0 : Ctx := {}

/-- `RESULT;OK;0` as parsed. -/
def evOk0 : PyDict := parse_line "RESULT;OK;0"

/-- `RESULT;NAK;1` as parsed. -/
def evNak1 : PyDict := parse_line "RESULT;NAK;1"

/-- `RESULT;NAK;2` (the busy NAK) as parsed. -/
def evNak2 : PyDict := parse_line "RESULT;NAK;2"

/-- A device-discovery EVENT line as parsed. -/
def evDevice : PyDict := parse_line "EVENT;AB12CD;NEW=1;WFA=1;TYP=5"

/-- The pairing state right after `start_search ctx0 {} "flow1"`. -/
def pairStarted : PairingState :=
  { active := true, flowId := some "flow1", stage := some .awaitStopResult,
    timeoutArmed := true, searchFut := some .pending, requestedStop := true }

/-- The candidate built from `evDevice` (with an empty device library). -/
def candAB : Candidate :=
  { device_id := "AB12CD", type_code := some "5", firmware := none,
    type_name := some "5", attrs := [("NEW", "1"), ("WFA", "1"), ("TYP", "5")] }

/-- The pairing state after stop-OK, add-OK and the discovery event. -/
def pairConfirmReady : PairingState :=
  { active := true, flowId := some "flow1", stage := some .awaitConfirmation,
    timeoutArmed := true, searchFut := some (.doneResult (some candAB)),
    candidate := some candAB, inEngineering := true, requestedStop := true }

/-- The pairing state after `confirm_candidate`. -/
def pairWaitingFinalize : PairingState :=
  { active := true, flowId := some "flow1", stage := some .waitingFinalize,
    timeoutArmed := true, searchFut := some (.doneResult (some candAB)),
    finalizeFut := some .pending, candidate := some candAB,
    inEngineering := true, requestedStop := true }

/-- The pairing state after seven consecutive busy NAKs: failed, with the
exit overlay pending. -/
def pairFailedBusy : PairingState :=
  { exitPending := true, exitStage := some .awaitSttResult,
    exitTimeoutArmed := true, exitCmdScheduled := some "stt",
    stopRetries := 3, requestedStop := true }

/-- A deletion session as armed by `async_delete` for device `did`. -/
def startedDel (did : String) : DelState :=
  { future := some .pending, stage := some .awaitStop, device_id := some did }

/-- Feeding `n` busy NAKs to a started deletion session. -/
def delNakRun (n : Nat) : DRun :=
  runDelEvents true { s := startedDel "AB12CD" } (List.replicate n evNak2)

/-- A system with one known device and a hub code. -/
def sysBase : System :=
  { hubCode := some "HUB001", listSt := { devices := [("AB12CD", ({} : Meta))] } }

/-- `sysBase` with a deletion in flight. -/
def sysDelBusy : System :=
  { sysBase with del := startedDel "AB12CD" }

/-- `sysDelBusy` after a pairing search was accepted on top of it. -/
def sysTwoBusy : System :=
  { sysDelBusy with pairing := pairStarted }

/-- A system with all four session kinds busy at once (used to witness the
rejection guards). -/
def sysAllBusy : System :=
  { sysBase with del := startedDel "AB12CD",
                 param := { future := some .pending, stage := some "await_stop",
                            device_id := some "AB12CD", command := some "cmd" },
                 pairing := pairStarted,
                 listSt := { devices := [("AB12CD", ({} : Meta))], list_active := true } }

/-- A parsed LIST event for a given device id (no type code). -/
def listEventFor (id : String) : PyDict :=
  [("tag", .str "LIST"), ("sequence", .str "1"), ("slot", .str "2"),
   ("device_id", .str id), ("type_code", .noneV)]

/-- Whether an `Except` is an error. -/
def isErr {ε α : Type} : Except ε α → Bool
  | .error _ => true
  | .ok _ => false

/-- The metadata entry accumulated for one `listEventFor` LIST line with
sequence `"1"` and slot `"2"`. -/
def metaFor (lib : Lib) (id : String) : Meta :=
  ensure_device_identity lib { sequence := some (some "1"), slot := some (some "2") } id

/-- A complete successful refresh run: start, delayed `stop`, stop-OK, LIST
lines for `A` and `B`, lst-OK, wrk-OK.  Returns the final state, the
removed-id set and the registry actions of the finalization. -/
def refreshRunAB (lib : Lib) (st0 : ListState) (A B : String) :
    ListState × List String × List RegAct :=
  let s1 := refresh_device_list_start true st0
  let s2 := (fire_delayed_stop s1).1
  let s3 := (process_list_result lib true s2 evOk0).1
  let s4 := handle_list_entry lib true s3 (listEventFor A)
  let s5 := handle_list_entry lib true s4 (listEventFor B)
  let s6 := (process_list_result lib true s5 evOk0).1
  let r := process_list_result lib true s6 evOk0
  (r.1, r.2.2.1, r.2.2.2)

/-! ## Helper lemmas -/

theorem setSearchErr_stopRetries (s : PairingState) (e : PairExc) :
    (setSearchErr s e).1.stopRetries = s.stopRetries := by
  unfold setSearchErr
  cases h : s.searchFut with
  | none => rfl
  | some f => cases f <;> rfl

theorem setFinalizeErr_stopRetries (s : PairingState) (e : PairExc) :
    (setFinalizeErr s e).1.stopRetries = s.stopRetries := by
  unfold setFinalizeErr
  cases h : s.finalizeFut with
  | none => rfl
  | some f => cases f <;> rfl

theorem cleanup_stopRetries (ctx : Ctx) (s : PairingState) (w f : Bool) :
    (cleanup ctx s w f).stopRetries = s.stopRetries := by
  simp only [cleanup, send_exit_command]
  split <;> split <;> rfl

theorem fail_stopRetries (ctx : Ctx) (s : PairingState) (r : String) :
    (fail ctx s r).1.stopRetries = s.stopRetries := by
  unfold fail
  rw [cleanup_stopRetries, setSearchErr_stopRetries, setFinalizeErr_stopRetries]

theorem handle_exit_result_stopRetries (s : PairingState) (st cd : String) :
    (handle_exit_result s st cd).1.stopRetries = s.stopRetries := by
  simp only [handle_exit_result, send_exit_command, complete_exit_success]
  split <;> (try split) <;> (try split) <;> rfl

/-- The pairing stop/clear retry counter is incremented only below its bound:
every RESULT step keeps `stopRetries ≤ 3`. -/
theorem handle_result_stopRetries_le (ctx : Ctx) (s : PairingState) (e : PyDict)
    (hp : s.stopRetries ≤ 3) :
    ∀ s1 c a b, handle_result ctx s e = .ok (s1, c, a, b) → s1.stopRetries ≤ 3 := by
  intro s1 c a b h
  simp only [handle_result] at h
  repeat' split at h
  all_goals
    first
    | exact Except.noConfusion h
    | (injection h with h2
       simp only [Prod.mk.injEq] at h2
       obtain ⟨h3, -⟩ := h2
       subst h3
       try dsimp only
       try simp only [fail_stopRetries, handle_exit_result_stopRetries]
       omega)

/-- A finalized refresh resets the retry counter. -/
theorem finalize_device_list_retries (lib : Lib) (st : ListState) (b : Bool) :
    (finalize_device_list lib st b).1.list_retries = 0 := rfl

/-- The list-refresh retry counter is incremented only below
`LIST_MAX_RETRIES`: every RESULT step keeps it within the bound. -/
theorem process_list_result_retries_le (lib : Lib) (proto : Bool) (st : ListState)
    (e : PyDict) (h : st.list_retries ≤ LIST_MAX_RETRIES) :
    (process_list_result lib proto st e).1.list_retries ≤ LIST_MAX_RETRIES := by
  simp only [process_list_result, schedule_wrk_send, schedule_wrk_cancel]
  repeat' split
  all_goals
    try dsimp only
  all_goals
    simp_all [finalize_device_list_retries, LIST_MAX_RETRIES]
  all_goals omega

/-- Feeding busy NAKs to a started deletion session resends `stop` once per
NAK and neither fails nor changes the session state. -/
theorem runDel_nak2_append (n : Nat) (r : DRun) (h : r.s = startedDel "AB12CD") :
    runDelEvents true r (List.replicate n evNak2) =
      { s := r.s, cmds := r.cmds ++ List.replicate n "stop", acts := r.acts } := by
  induction n generalizing r with
  | zero => simp [runDelEvents]
  | succ n ih =>
    rw [List.replicate_succ]
    unfold runDelEvents
    rw [h]
    have hstep : del_handle_event true (startedDel "AB12CD") evNak2 =
        (startedDel "AB12CD", ["stop"], [], true) := rfl
    rw [hstep]
    dsimp only
    rw [ih _ rfl]
    simp [h, List.replicate_succ]

/-- `start_search` always fails busy while a device-list refresh is active. -/
theorem start_search_rejects_listActive (ctx : Ctx) (p : PairingState) (f : String)
    (h : ctx.listActive = true) :
    start_search ctx p f = .error (.pairingError "busy") := by
  unfold start_search
  split_ifs <;> simp_all

/-- `start_search` always fails busy while pairing is active or exiting. -/
theorem start_search_rejects_pairing (ctx : Ctx) (p : PairingState) (f : String)
    (h : p.active = true ∨ p.exitPending = true) :
    start_search ctx p f = .error (.pairingError "busy") := by
  unfold start_search
  split_ifs <;> simp_all

/-- `async_delete` start is rejected whenever its own session, the refresh
or the pairing coordinator is busy; no command is sent. -/
theorem async_delete_start_rejects (sys : System) (id : String)
    (h : sys.listSt.list_active = true ∨ sys.pairing.active = true ∨
         sys.pairing.exitPending = true ∨ sys.del.future ≠ none) :
    isErr (async_delete_start sys id).1 = true ∧ (async_delete_start sys id).2 = [] := by
  simp only [async_delete_start]
  split_ifs <;> simp_all [isErr]

/-- `async_set` start is rejected whenever any of the four session kinds is
busy; no command is sent. -/
theorem async_set_start_rejects (sys : System) (id cmd : String)
    (h : sys.listSt.list_active = true ∨ sys.pairing.active = true ∨
         sys.pairing.exitPending = true ∨ sys.del.future ≠ none ∨
         sys.param.future ≠ none) :
    isErr (async_set_start sys id cmd).1 = true ∧ (async_set_start sys id cmd).2 = [] := by
  simp only [async_set_start]
  split_ifs <;> simp_all [isErr]

/-- A refresh trigger while one is active is a silent no-op. -/
theorem refresh_start_noop (sys : System) (h : sys.listSt.list_active = true) :
    system_refresh_start sys = (sys, []) := by
  simp [system_refresh_start, refresh_device_list_start, h]

/-! ## Claim theorems -/

/-- C10: the deletion operation refuses to delete the hub itself: whenever
the uppercased device id is empty or equals the hub's own device code, it
fails with the invalid-device error and sends no command — in every state,
including busy ones, because the check precedes the lock acquisition and
every busy check. -/
theorem c10_delete_rejects_hub_id (sys : System) (id : String)
    (h : pyUpper id = "" ∨ sys.hubCode = some (pyUpper id)) :
    async_delete_start sys id = (.error "Invalid device id", []) := by
  rcases h with h | h
  · unfold async_delete_start
    rw [h]
    simp
  · unfold async_delete_start
    simp [h]

/-- C10 witness: the hub id is refused even while a deletion is running. -/
theorem c10_witness :
    async_delete_start { sysBase with del := startedDel "AB12CD" } "hub001"
      = (.error "Invalid device id", []) :=
  c10_delete_rejects_hub_id _ _ (Or.inr rfl)

/-- C2: the RESULT-driven finalize-success path: from a reachable
`waiting_finalize` state (accepted search, stop-OK, add-OK, discovery EVENT,
`confirm_candidate`), a `RESULT;OK;0` frame makes `_handle_result` call
`_finalize_success()` without its required keyword-only argument `refresh`,
so CPython raises TypeError before either result handle is resolved; both
handles are still pending at that point (the finalize handle pending, the
search handle already resolved with the candidate). -/
theorem c2_finalize_success_raises :
    start_search ctx0 {} "flow1" = .ok (pairStarted, ["stop"]) ∧
    runPairingEvents ctx0 { s := pairStarted } [evOk0, evOk0, evDevice] =
      .ok { s := pairConfirmReady, cmds := ["add"],
            acts := [.setSearchResult (some candAB)] } ∧
    confirm_candidate ctx0 pairConfirmReady "flow1" = .ok (pairWaitingFinalize, ["y"]) ∧
    pairWaitingFinalize.finalizeFut = some .pending ∧
    pairing_handle_event ctx0 pairWaitingFinalize evOk0 =
      .error (.typeError
        "_finalize_success() missing 1 required keyword-only argument: 'refresh'") :=
  ⟨rfl, rfl, rfl, rfl, rfl⟩

/-- C3: deletion session behaviour.  A started deletion (a) was armed by
`async_delete` which sent exactly `stop`; (b) on stop-OK, del-OK, wrk-OK it
sends exactly `del <id>` and `wrk`, resolves the handle successfully and
sends nothing else; (c) a busy NAK at the stop stage resends `stop` without
failing; (d) a NAK with code 1 at the del stage sends `wrk` exactly once and
fails the handle with the protocol-failure error. -/
theorem c3_deletion_session (sys sys1 : System) (cs : List String) (id did : String)
    (hstart : async_delete_start sys id = (.ok sys1, cs)) :
    (cs = ["stop"] ∧ sys1.del = startedDel (pyUpper id)) ∧
    runDelEvents true { s := startedDel did } [evOk0, evOk0, evOk0] =
      { s := { future := some .doneOk, stage := some .awaitWrk, device_id := some did },
        cmds := ["del " ++ did, "wrk"], acts := [.setResult] } ∧
    runDelEvents true { s := startedDel did } [evNak2] =
      { s := startedDel did, cmds := ["stop"], acts := [] } ∧
    runDelEvents true { s := startedDel did } [evOk0, evNak1] =
      { s := {}, cmds := ["del " ++ did, "wrk"],
        acts := [.setError "delete_failed status=NAK code=1"] } := by
  refine ⟨?_, rfl, rfl, rfl⟩
  simp only [async_delete_start] at hstart
  split_ifs at hstart <;>
    simp only [Prod.mk.injEq, Except.ok.injEq] at hstart <;>
    first
    | exact absurd hstart.1 (by simp)
    | (obtain ⟨h1, h2⟩ := hstart
       subst h1
       exact ⟨h2.symm, rfl⟩)

/-- C3 witness: a concrete started deletion. -/
theorem c3_witness :
    (["stop"] = ["stop"] ∧ sysDelBusy.del = startedDel (pyUpper "ab12cd")) ∧
    runDelEvents true { s := startedDel "AB12CD" } [evOk0, evOk0, evOk0] =
      { s := { future := some .doneOk, stage := some .awaitWrk,
               device_id := some "AB12CD" },
        cmds := ["del " ++ "AB12CD", "wrk"], acts := [.setResult] } ∧
    runDelEvents true { s := startedDel "AB12CD" } [evNak2] =
      { s := startedDel "AB12CD", cmds := ["stop"], acts := [] } ∧
    runDelEvents true { s := startedDel "AB12CD" } [evOk0, evNak1] =
      { s := {}, cmds := ["del " ++ "AB12CD", "wrk"],
        acts := [.setError "delete_failed status=NAK code=1"] } :=
  c3_deletion_session sysBase sysDelBusy ["stop"] "ab12cd" "AB12CD" rfl

/-- C4 counterexample: after four consecutive busy NAK replies in a row the
pairing session has not failed — no handle was resolved, the session is
still active in `await_stop_result` with the retry counter at 2, contrary to
the claim that it fails after such a sequence. -/
theorem c4_counterexample :
    start_search ctx0 {} "flow1" = .ok (pairStarted, ["stop"]) ∧
    runPairingEvents ctx0 { s := pairStarted } [evNak2, evNak2, evNak2, evNak2] =
      .ok { s := { pairStarted with stopRetries := 2 },
            cmds := ["stt", "stop", "stt", "stop"], acts := [] } :=
  ⟨rfl, rfl⟩

/-- C4 amended: the session fails its pending handle with
`PairingError("busy")` on the seventh consecutive busy NAK (the fourth
received in `await_stop_result`, after three `stt` clear rounds), and the
stop-stage retry counter never exceeds 3. -/
theorem c4_amended (ctx : Ctx) (s : PairingState) (e : PyDict)
    (hp : s.stopRetries ≤ 3) :
    runPairingEvents ctx0 { s := pairStarted } (List.replicate 7 evNak2) =
      .ok { s := pairFailedBusy,
            cmds := ["stt", "stop", "stt", "stop", "stt", "stop"],
            acts := [.setSearchError (.pairingError "busy")] } ∧
    (∀ s1 c a b, handle_result ctx s e = .ok (s1, c, a, b) → s1.stopRetries ≤ 3) :=
  ⟨rfl, handle_result_stopRetries_le ctx s e hp⟩

/-- C4 witness: the amended statement applied at the started session. -/
theorem c4_witness :
    runPairingEvents ctx0 { s := pairStarted } (List.replicate 7 evNak2) =
      .ok { s := pairFailedBusy,
            cmds := ["stt", "stop", "stt", "stop", "stt", "stop"],
            acts := [.setSearchError (.pairingError "busy")] } ∧
    (∀ s1 c a b, handle_result ctx0 pairStarted evNak2 = .ok (s1, c, a, b) →
       s1.stopRetries ≤ 3) := by
  have h := c4_amended ctx0 pairStarted evNak2 (by decide)
  exact ⟨h.1, h.2⟩

/-- C7 counterexample: `force_cleanup` does not clear the exit overlay.
After a cancelled search put the session into the exit overlay,
`force_cleanup` leaves `exit_pending` set, and a subsequent `start_search`
is rejected as busy — contradicting the claim that all pairing state
including the exit overlay is cleared. -/
theorem c7_counterexample :
    (cancel ctx0 pairStarted "cancelled").1.exitPending = true ∧
    (force_cleanup (cancel ctx0 pairStarted "cancelled").1).1.exitPending = true ∧
    (force_cleanup (cancel ctx0 pairStarted "cancelled").1).1.exitStage
      = some .awaitSttResult ∧
    start_search ctx0 (force_cleanup (cancel ctx0 pairStarted "cancelled").1).1 "flow2"
      = .error (.pairingError "busy") :=
  ⟨rfl, rfl, rfl, rfl⟩

/-- C7 amended: `force_cleanup` sends no hub command, cancels all three
pairing timers, fails each pending handle with cancellation, and clears the
top-level pairing state — but leaves `exit_pending` and `exit_stage`
unchanged, so after a cleanup performed while the exit overlay was pending a
subsequent `start_search` is still rejected as busy. -/
theorem c7_amended (s : PairingState) :
    force_cleanup s =
      ({ s with active := false, stage := none, flowId := none, candidate := none,
                searchFut := none, finalizeFut := none, inEngineering := false,
                requestedStop := false, timeoutArmed := false,
                exitTimeoutArmed := false, exitCmdScheduled := none },
       [],
       (if s.searchFut = some .pending then
          [PAct.setSearchError (.pairingCancelled "cancelled")] else []) ++
       (if s.finalizeFut = some .pending then
          [PAct.setFinalizeError (.pairingCancelled "cancelled")] else [])) ∧
    (s.exitPending = true → ∀ ctx f,
      start_search ctx (force_cleanup s).1 f = .error (.pairingError "busy")) := by
  constructor
  · cases hs : s.searchFut with
    | none => cases hf : s.finalizeFut with
      | none => simp [force_cleanup, setSearchErr, setFinalizeErr, hs, hf]
      | some f => cases f <;> simp [force_cleanup, setSearchErr, setFinalizeErr, hs, hf]
    | some g => cases g <;> cases hf : s.finalizeFut with
      | none => simp [force_cleanup, setSearchErr, setFinalizeErr, hs, hf]
      | some f => cases f <;> simp [force_cleanup, setSearchErr, setFinalizeErr, hs, hf]
  · intro hex ctx f
    have hact : (force_cleanup s).1.active = false := by
      cases hs : s.searchFut with
      | none => cases hf : s.finalizeFut with
        | none => simp [force_cleanup, setSearchErr, setFinalizeErr, hs, hf]
        | some f => cases f <;> simp [force_cleanup, setSearchErr, setFinalizeErr, hs, hf]
      | some g => cases g <;> cases hf : s.finalizeFut with
        | none => simp [force_cleanup, setSearchErr, setFinalizeErr, hs, hf]
        | some f => cases f <;> simp [force_cleanup, setSearchErr, setFinalizeErr, hs, hf]
    have hexit : (force_cleanup s).1.exitPending = true := by
      cases hs : s.searchFut with
      | none => cases hf : s.finalizeFut with
        | none => simp [force_cleanup, setSearchErr, setFinalizeErr, hs, hf, hex]
        | some f => cases f <;> simp [force_cleanup, setSearchErr, setFinalizeErr, hs, hf, hex]
      | some g => cases g <;> cases hf : s.finalizeFut with
        | none => simp [force_cleanup, setSearchErr, setFinalizeErr, hs, hf, hex]
        | some f => cases f <;> simp [force_cleanup, setSearchErr, setFinalizeErr, hs, hf, hex]
    unfold start_search
    rw [hact, hexit]
    simp

/-- C7 witness: the amended statement applied at a state with both handles
pending and the exit overlay pending. -/
theorem c7_witness :
    force_cleanup { pairWaitingFinalize with exitPending := true } =
      (({ exitPending := true } : PairingState), [],
       [PAct.setFinalizeError (.pairingCancelled "cancelled")]) ∧
    start_search ctx0
      (force_cleanup { pairWaitingFinalize with exitPending := true }).1 "flow9"
      = .error (.pairingError "busy") := by
  have h := c7_amended { pairWaitingFinalize with exitPending := true }
  refine ⟨?_, h.2 rfl ctx0 "flow9"⟩
  rw [h.1]
  rfl

/-- C1 counterexample: mutual exclusion fails.  From a system with one known
device, starting a deletion succeeds (sending `stop`); a pairing search
started while that deletion is still busy is accepted instead of failing
with Busy, also sends `stop`, and leaves two sessions busy at once. -/
theorem c1_counterexample :
    async_delete_start sysBase "AB12CD" = (.ok sysDelBusy, ["stop"]) ∧
    sysDelBusy.del.future = some .pending ∧
    system_start_search sysDelBusy "flow1" = (.ok sysTwoBusy, ["stop"]) ∧
    sysTwoBusy.pairing.active = true ∧
    sysTwoBusy.del.future = some .pending :=
  ⟨rfl, rfl, rfl, rfl, rfl⟩

/-- C1 amended: the busy guards that actually exist.  While a refresh is
active, all three session starts fail before sending and a refresh trigger
is a no-op; while pairing is active or exiting, deletion and parameter
starts are rejected; while a deletion is busy, a parameter start is
rejected; a second start of the same kind is rejected.  (Pairing start does
not consult the deletion or parameter coordinators, and deletion does not
consult the parameter coordinator — the counterexample exhibits two
simultaneously busy sessions.) -/
theorem c1_amended (sys : System) (f id cmd : String) :
    (sys.listSt.list_active = true →
      (system_start_search sys f).1 = .error (.pairingError "busy") ∧
      (system_start_search sys f).2 = [] ∧
      isErr (async_delete_start sys id).1 = true ∧
      (async_delete_start sys id).2 = [] ∧
      isErr (async_set_start sys id cmd).1 = true ∧
      (async_set_start sys id cmd).2 = [] ∧
      system_refresh_start sys = (sys, [])) ∧
    (sys.pairing.active = true ∨ sys.pairing.exitPending = true →
      (system_start_search sys f).1 = .error (.pairingError "busy") ∧
      (system_start_search sys f).2 = [] ∧
      isErr (async_delete_start sys id).1 = true ∧
      (async_delete_start sys id).2 = [] ∧
      isErr (async_set_start sys id cmd).1 = true ∧
      (async_set_start sys id cmd).2 = []) ∧
    (sys.del.future ≠ none →
      isErr (async_delete_start sys id).1 = true ∧
      (async_delete_start sys id).2 = [] ∧
      isErr (async_set_start sys id cmd).1 = true ∧
      (async_set_start sys id cmd).2 = []) ∧
    (sys.param.future ≠ none →
      isErr (async_set_start sys id cmd).1 = true ∧
      (async_set_start sys id cmd).2 = []) := by
  refine ⟨fun h => ?_, fun h => ?_, fun h => ?_, fun h => ?_⟩
  · have hss := start_search_rejects_listActive
      { proto := sys.proto, listActive := sys.listSt.list_active } sys.pairing f h
    have hd := async_delete_start_rejects sys id (Or.inl h)
    have hp := async_set_start_rejects sys id cmd (Or.inl h)
    exact ⟨by simp [system_start_search, hss], by simp [system_start_search, hss],
           hd.1, hd.2, hp.1, hp.2, refresh_start_noop sys h⟩
  · have hss := start_search_rejects_pairing
      { proto := sys.proto, listActive := sys.listSt.list_active } sys.pairing f h
    have hd := async_delete_start_rejects sys id
      (by rcases h with h | h
          · exact Or.inr (Or.inl h)
          · exact Or.inr (Or.inr (Or.inl h)))
    have hp := async_set_start_rejects sys id cmd
      (by rcases h with h | h
          · exact Or.inr (Or.inl h)
          · exact Or.inr (Or.inr (Or.inl h)))
    exact ⟨by simp [system_start_search, hss], by simp [system_start_search, hss],
           hd.1, hd.2, hp.1, hp.2⟩
  · have hd := async_delete_start_rejects sys id (Or.inr (Or.inr (Or.inr h)))
    have hp := async_set_start_rejects sys id cmd
      (Or.inr (Or.inr (Or.inr (Or.inl h))))
    exact ⟨hd.1, hd.2, hp.1, hp.2⟩
  · have hp := async_set_start_rejects sys id cmd
      (Or.inr (Or.inr (Or.inr (Or.inr h))))
    exact ⟨hp.1, hp.2⟩

/-- C1 witness: the guards applied at a system with all four session kinds
busy at once. -/
theorem c1_witness :
    (system_start_search sysAllBusy "f").1 = .error (.pairingError "busy") ∧
    isErr (async_delete_start sysAllBusy "AB12CD").1 = true ∧
    isErr (async_set_start sysAllBusy "AB12CD" "par 1").1 = true ∧
    system_refresh_start sysAllBusy = (sysAllBusy, []) := by
  have h := (c1_amended sysAllBusy "f" "AB12CD" "par 1").1 rfl
  exact ⟨h.1, h.2.2.1, h.2.2.2.2.1, h.2.2.2.2.2.2⟩

/-- C5 counterexample: the deletion stop-stage busy-NAK retry has no maximum
attempt count — for every claimed bound there is a longer run of busy NAKs
after which the session still has not failed, and `n` NAKs produce `n`
resends of `stop`. -/
theorem c5_counterexample :
    (¬ ∃ N : Nat, ∀ n : Nat, N ≤ n → (delNakRun n).acts ≠ []) ∧
    (delNakRun 10).cmds = List.replicate 10 "stop" ∧
    (delNakRun 10).acts = [] := by
  refine ⟨?_, ?_, ?_⟩
  · rintro ⟨N, hN⟩
    exact hN N le_rfl (by rw [delNakRun, runDel_nak2_append N _ rfl])
  · rw [delNakRun, runDel_nak2_append 10 _ rfl]
    rfl
  · rw [delNakRun, runDel_nak2_append 10 _ rfl]

/-- C5 amended: the pairing stop/clear retry counter is bounded by 3 and the
list-refresh retry counter by 5 (each step preserves the bound), but the
deletion stop-stage busy-NAK retry is not attempt-bounded: `n` consecutive
busy NAKs cause `n` resends of `stop` with the handle still pending, for
every `n` — that loop is bounded only by the session's 15-second wall-clock
timeout. -/
theorem c5_amended (ctx : Ctx) (s : PairingState) (e : PyDict) (lib : Lib)
    (proto : Bool) (st : ListState) (e2 : PyDict)
    (hp : s.stopRetries ≤ 3) (hl : st.list_retries ≤ LIST_MAX_RETRIES) :
    (∀ s1 c a b, handle_result ctx s e = .ok (s1, c, a, b) → s1.stopRetries ≤ 3) ∧
    (process_list_result lib proto st e2).1.list_retries ≤ LIST_MAX_RETRIES ∧
    (∀ n, delNakRun n =
      { s := startedDel "AB12CD", cmds := List.replicate n "stop", acts := [] }) := by
  refine ⟨handle_result_stopRetries_le ctx s e hp,
          process_list_result_retries_le lib proto st e2 hl, fun n => ?_⟩
  rw [delNakRun, runDel_nak2_append n _ rfl]
  rfl

/-- C5 witness: the amended statement applied at concrete states. -/
theorem c5_witness :
    (∀ s1 c a b, handle_result ctx0 pairStarted evNak2 = .ok (s1, c, a, b) →
       s1.stopRetries ≤ 3) ∧
    (process_list_result {} true { list_active := true, list_stage := some .stop }
        evNak2).1.list_retries ≤ LIST_MAX_RETRIES ∧
    delNakRun 3 = { s := startedDel "AB12CD", cmds := List.replicate 3 "stop",
                    acts := [] } := by
  have h := c5_amended ctx0 pairStarted evNak2 {} true
    { list_active := true, list_stage := some .stop } evNak2 (by decide) (by decide)
  exact ⟨h.1, h.2.1, h.2.2 3⟩

theorem dictSet_head_cons (k0 : String) (w0 : PyVal) (rest : PyDict) (k : String) (v : PyVal) :
    ∃ w1 rest1, dictSet ((k0, w0) :: rest) k v = (k0, w1) :: rest1 := by
  unfold dictSet
  split
  · by_cases hk : k0 = k
    · refine ⟨v, (rest.map fun p => if p.1 = k then (k, v) else p), ?_⟩
      simp [hk]
    · refine ⟨w0, (rest.map fun p => if p.1 = k then (k, v) else p), ?_⟩
      simp [hk]
  · exact ⟨w0, rest ++ [(k, v)], rfl⟩

theorem dictUpdate_head_cons (u : PyDict) : ∀ (k0 : String) (w0 : PyVal) (rest : PyDict),
    ∃ w1 rest1, dictUpdate ((k0, w0) :: rest) u = (k0, w1) :: rest1 := by
  induction u with
  | nil => exact fun k0 w0 rest => ⟨w0, rest, rfl⟩
  | cons p u ih =>
    intro k0 w0 rest
    obtain ⟨w1, rest1, h1⟩ := dictSet_head_cons k0 w0 rest p.1 p.2
    obtain ⟨w2, rest2, h2⟩ := ih k0 w1 rest1
    refine ⟨w2, rest2, ?_⟩
    show dictUpdate (dictSet ((k0, w0) :: rest) p.1 p.2) u = _
    rw [h1, h2]

theorem extractFor_unknown (t : String) (parts : List String)
    (h1 : t ≠ "ALARM") (h2 : t ≠ "STATUS") (h3 : t ≠ "RSTATE")
    (h4 : t ≠ "EVENT") (h5 : t ≠ "LIST") (h6 : t ≠ "RESULT") :
    extractFor t parts = .ok [] := by
  unfold extractFor
  rw [if_neg h1, if_neg h2, if_neg h3, if_neg h4, if_neg h5, if_neg h6]

/-- C8: parser totality.  `parse_line` is a total function (the Python
`try`/`except` wraps the only extractors that can raise): every result is a
record whose first entry is the `tag` key; a line whose tag is not one of
the six recognized tags yields exactly the bare `{tag, raw}` record with no
extra fields and no error; and whenever the tag-specific extractor raises,
the result is exactly the bare record plus the `error` field carrying the
exception message, with no partial fields propagated. -/
theorem c8_parse_line_total (line : String) :
    (∃ v rest, parse_line line = ("tag", v) :: rest) ∧
    (pyUpper ((pySplit line ';').headD "") ∉ knownTags →
      parse_line line =
        [("tag", .str (pyUpper ((pySplit line ';').headD ""))), ("raw", .str line)]) ∧
    (∀ err, extractFor (pyUpper ((pySplit line ';').headD "")) (pySplit line ';') = .error err →
      parse_line line =
        [("tag", .str (pyUpper ((pySplit line ';').headD ""))), ("raw", .str line),
         ("error", .str err)]) := by
  refine ⟨?_, ?_, ?_⟩
  · simp only [parse_line]
    cases h : extractFor (pyUpper ((pySplit line ';').headD "")) (pySplit line ';') with
    | ok u => exact dictUpdate_head_cons u _ _ _
    | error e =>
      refine ⟨.str (pyUpper ((pySplit line ';').headD "")),
              [("raw", .str line), ("error", .str e)], ?_⟩
      simp [dictSet]
  · intro h
    simp only [knownTags, List.mem_cons, List.not_mem_nil, or_false, not_or] at h
    obtain ⟨h1, h2, h3, h4, h5, h6⟩ := h
    simp only [parse_line]
    rw [extractFor_unknown _ _ h1 h2 h3 h4 h5 h6]
    rfl
  · intro err herr
    simp only [parse_line]
    rw [herr]
    simp [dictSet]

/-- C8 witness: an unknown tag gives the bare record; a truncated ALARM line
records the IndexError message instead of raising. -/
theorem c8_witness :
    parse_line "FOO;bar" = [("tag", .str "FOO"), ("raw", .str "FOO;bar")] ∧
    parse_line "ALARM;x" = [("tag", .str "ALARM"), ("raw", .str "ALARM;x"),
                            ("error", .str "list index out of range")] :=
  ⟨(c8_parse_line_total "FOO;bar").2.1 (by decide),
   (c8_parse_line_total "ALARM;x").2.2 "list index out of range" rfl⟩

/-- C9 counterexample: a STATUS line whose setting-byte field fails integer
conversion gets `setting_byte_1` PRESENT with value `None` (the
`_maybe_int` null placeholder), not left absent as the claim states; the
rest of the parse still succeeds (no error field). -/
theorem c9_counterexample :
    dictGet (parse_line "STATUS;5;AB12CD;x;90;3;0;1.5;2.5;z;junk") "setting_byte_1"
      = some PyVal.noneV ∧
    dictGet (parse_line "STATUS;5;AB12CD;x;90;3;0;1.5;2.5;z;junk") "error" = none :=
  ⟨rfl, rfl⟩

/-- C9 amended: for every STATUS line with a setting-byte field whose
integer conversion fails, the field is set to the null placeholder `None`
(key present, value None) rather than left unset, and the rest of the parse
still succeeds (the STATUS extractor never raises). -/
theorem c9_amended (fields : List String) (h10 : 10 < fields.length)
    (hfail : pyInt (fields.getD 10 "") = none) :
    extractFor "STATUS" fields = .ok (parse_status fields) ∧
    dictGet (parse_status fields) "setting_byte_1" = some PyVal.noneV := by
  have h8 : 8 < fields.length := by omega
  refine ⟨rfl, ?_⟩
  simp only [parse_status, maybe_int, hfail, gt_iff_lt, h8, h10, if_true]
  by_cases h11 : 11 < fields.length <;>
    simp only [h11, if_true, if_false] <;>
    split <;> rfl

/-- C9 witness: the amended statement applied at a concrete STATUS line. -/
theorem c9_witness :
    dictGet (parse_status ["STATUS", "5", "AB12CD", "x", "90", "3", "0",
        "1.5", "2.5", "z", "junk"]) "setting_byte_1" = some PyVal.noneV :=
  (c9_amended ["STATUS", "5", "AB12CD", "x", "90", "3", "0", "1.5", "2.5", "z", "junk"]
    (by decide) rfl).2

theorem eventDeviceId_listEventFor (id : String) :
    eventDeviceId (listEventFor id) = pyUpper id := rfl

/-- C6: device-list refresh diff.  A refresh that collects LIST lines for
exactly the devices `A` and `B` and then finalizes successfully (wrk stage
RESULT OK) ends with the device map and allowed-id set exactly
`{A, B}` (uppercased), and the removed set reported to the registry
collaborator is exactly the previous snapshot minus `{A, B}` — in
particular it contains every snapshot device `C` that received no LIST
line. -/
theorem c6_refresh_diff (lib : Lib) (st0 : ListState) (A B : String)
    (hact : st0.list_active = false)
    (hA : pyUpper A ≠ "") (hB : pyUpper B ≠ "") (hAB : pyUpper A ≠ pyUpper B) :
    alistKeys (refreshRunAB lib st0 A B).1.devices = [pyUpper A, pyUpper B] ∧
    (refreshRunAB lib st0 A B).1.allowed_ids = [pyUpper A, pyUpper B] ∧
    (refreshRunAB lib st0 A B).2.1 = (alistKeys st0.devices).filter
      (fun k => !([pyUpper A, pyUpper B].contains k)) ∧
    (∀ C, C ∈ alistKeys st0.devices → C ≠ pyUpper A → C ≠ pyUpper B →
      C ∈ (refreshRunAB lib st0 A B).2.1) := by
  have e1 : refresh_device_list_start true st0 =
      { st0 with devices_snapshot := some st0.devices, list_pending := some [],
                 list_active := true, list_stage := none, list_retries := 0,
                 list_timeout_armed := true, delayed_stop_armed := true } := by
    simp [refresh_device_list_start, hact]
  have e4 : handle_list_entry lib true
      { st0 with devices_snapshot := some st0.devices, list_pending := some [],
                 list_active := true, list_stage := some .lst, list_retries := 0,
                 list_timeout_armed := true, delayed_stop_armed := false,
                 wrk_handle_armed := true } (listEventFor A) =
      { st0 with devices_snapshot := some st0.devices,
                 list_pending := some [(pyUpper A, metaFor lib (pyUpper A))],
                 list_active := true, list_stage := some .lst, list_retries := 0,
                 list_timeout_armed := true, delayed_stop_armed := false,
                 wrk_handle_armed := true } := by
    simp only [handle_list_entry, eventDeviceId_listEventFor]
    rw [if_neg hA]
    rfl
  have e5 : handle_list_entry lib true
      { st0 with devices_snapshot := some st0.devices,
                 list_pending := some [(pyUpper A, metaFor lib (pyUpper A))],
                 list_active := true, list_stage := some .lst, list_retries := 0,
                 list_timeout_armed := true, delayed_stop_armed := false,
                 wrk_handle_armed := true } (listEventFor B) =
      { st0 with devices_snapshot := some st0.devices,
                 list_pending := some [(pyUpper A, metaFor lib (pyUpper A)),
                                       (pyUpper B, metaFor lib (pyUpper B))],
                 list_active := true, list_stage := some .lst, list_retries := 0,
                 list_timeout_armed := true, delayed_stop_armed := false,
                 wrk_handle_armed := true } := by
    have hget : alistGet [(pyUpper A, metaFor lib (pyUpper A))] (pyUpper B) = none := by
      simp [alistGet, List.find?, hAB]
    have hset : ∀ m : Meta, alistSet [(pyUpper A, metaFor lib (pyUpper A))] (pyUpper B) m =
        [(pyUpper A, metaFor lib (pyUpper A)), (pyUpper B, m)] := by
      intro m
      simp [alistSet, hAB]
    simp only [handle_list_entry, eventDeviceId_listEventFor]
    rw [if_neg hB]
    simp only [Option.getD_some]
    rw [hget, hset]
    rfl
  have hrun : refreshRunAB lib st0 A B =
      (let s6 : ListState :=
        { st0 with devices_snapshot := some st0.devices,
                   list_pending := some [(pyUpper A, metaFor lib (pyUpper A)),
                                         (pyUpper B, metaFor lib (pyUpper B))],
                   list_active := true, list_stage := some .wrk, list_retries := 0,
                   list_timeout_armed := true, delayed_stop_armed := false,
                   wrk_handle_armed := false }
       let r := process_list_result lib true s6 evOk0
       (r.1, r.2.2.1, r.2.2.2)) := by
    simp only [refreshRunAB]
    rw [e1]
    rw [show (fire_delayed_stop
        { st0 with devices_snapshot := some st0.devices, list_pending := some [],
                   list_active := true, list_stage := none, list_retries := 0,
                   list_timeout_armed := true, delayed_stop_armed := true }).1 =
        { st0 with devices_snapshot := some st0.devices, list_pending := some [],
                   list_active := true, list_stage := some .stop, list_retries := 0,
                   list_timeout_armed := true, delayed_stop_armed := false } from rfl]
    rw [show (process_list_result lib true
        { st0 with devices_snapshot := some st0.devices, list_pending := some [],
                   list_active := true, list_stage := some .stop, list_retries := 0,
                   list_timeout_armed := true, delayed_stop_armed := false } evOk0).1 =
        { st0 with devices_snapshot := some st0.devices, list_pending := some [],
                   list_active := true, list_stage := some .lst, list_retries := 0,
                   list_timeout_armed := true, delayed_stop_armed := false,
                   wrk_handle_armed := true } from rfl]
    rw [e4, e5]
    rw [show (process_list_result lib true
        { st0 with devices_snapshot := some st0.devices,
                   list_pending := some [(pyUpper A, metaFor lib (pyUpper A)),
                                         (pyUpper B, metaFor lib (pyUpper B))],
                   list_active := true, list_stage := some .lst, list_retries := 0,
                   list_timeout_armed := true, delayed_stop_armed := false,
                   wrk_handle_armed := true } evOk0).1 =
        { st0 with devices_snapshot := some st0.devices,
                   list_pending := some [(pyUpper A, metaFor lib (pyUpper A)),
                                         (pyUpper B, metaFor lib (pyUpper B))],
                   list_active := true, list_stage := some .wrk, list_retries := 0,
                   list_timeout_armed := true, delayed_stop_armed := false,
                   wrk_handle_armed := false } from rfl]
  rw [hrun]
  refine ⟨rfl, rfl, rfl, ?_⟩
  intro C hC h1 h2
  show C ∈ (alistKeys st0.devices).filter _
  simp only [List.mem_filter]
  refine ⟨hC, ?_⟩
  simp [alistKeys, h1, h2]


/-- C6 witness: a concrete refresh over a snapshot holding `CC33`. -/
theorem c6_witness :
    alistKeys (refreshRunAB {} { devices := [("CC33", ({} : Meta))] }
      "aa11" "bb22").1.devices = [pyUpper "aa11", pyUpper "bb22"] ∧
    "CC33" ∈ (refreshRunAB {} { devices := [("CC33", ({} : Meta))] }
      "aa11" "bb22").2.1 := by
  have h := c6_refresh_diff {} { devices := [("CC33", ({} : Meta))] } "aa11" "bb22"
    rfl (by decide) (by decide) (by decide)
  exact ⟨h.1, h.2.2.2 "CC33" (by decide) (by decide) (by decide)⟩

end AjaxUart
